import Mathlib

set_option linter.unusedVariables false

/-!
Shallow embedding of the houdini-mcp command relay.

Back end (`server.py`): a socket server embedded in the host's UI timer loop.
`_process_server` accumulates received bytes in a buffer and attempts
`json.loads(self.buffer.decode("utf-8"))` on the full buffer after every
read: on success it clears the buffer, dispatches the command through
`execute_command` and writes the serialized response back; a
`json.JSONDecodeError` is caught by the inner handler and the buffer kept;
a `UnicodeDecodeError` from the decode escapes the inner handler to the
outer receive handler, which drops the client and clears the buffer.
`execute_command` wraps `_execute_command_internal`, which
looks the envelope's `type` up in a dispatch table (extended by three asset
handlers when the session toggle is set) and calls the handler with the
envelope's `params` as keyword arguments.

Front end (`houdini_mcp_server.py`): `HoudiniConnection.send_command`
serializes an envelope, sends it, then loop-reads chunks attempting a
full-buffer JSON parse after each one; any exception during send or read
closes the socket and nulls the handle before re-raising.

JSON values carried in envelopes are opaque to the relay, so the dispatch
layer is parameterized by a value type `V`; handler behaviour (which depends
on the host application's scene state) is abstracted as a function
`run : String → params → Except String V`, an `Except.error msg` modelling a
Python exception whose `str` is `msg`.  Bytes are modelled as `List Nat`.
-/

namespace HoudiniMCP

/-- Response envelope: `{status:"success", result:...}` or
`{status:"error", message:...}` (`server.py`). -/
inductive Response (V : Type) where
  | success (result : V)
  | error (message : String)
  deriving Repr, DecidableEq

/-- The `status` field of a response envelope. -/
def Response.status {V : Type} : Response V → String
  | .success _ => "success"
  | .error _ => "error"

/-- Command envelope `{type:..., params:...}`; either key may be absent
(`command.get("type")`, `command.get("params", {})`). -/
structure Command (V : Type) where
  type? : Option String
  params? : Option (List (String × V))
  deriving Repr, DecidableEq

/-- The always-available handler table keys (`_execute_command_internal`). -/
def base_handlers : List String :=
  ["get_scene_info", "create_node", "modify_node", "delete_node",
   "get_node_info", "execute_code", "set_material", "get_asset_lib_status"]

/-- Handler keys added when `hou.session.houdinimcp_use_assetlib` is set. -/
def asset_handlers : List String :=
  ["get_asset_categories", "search_assets", "import_asset"]

/-- Keys of the dispatch table given the asset-library toggle. -/
def handlers (useAssetlib : Bool) : List String :=
  base_handlers ++ if useAssetlib then asset_handlers else []

/-- Python `str` of the envelope's `type` as interpolated into
`f"Unknown command type: \x7bcmd_type\x7d"`; a missing key prints `None`. -/
def fstr_type : Option String → String
  | some t => t
  | none => "None"

/-- `_execute_command_internal`: dispatch-table lookup; unknown types return
an error envelope normally, handler exceptions propagate (`Except.error`). -/
def execute_command_internal {V : Type} (useAssetlib : Bool)
    (run : String → List (String × V) → Except String V)
    (command : Command V) : Except String (Response V) :=
  let params := command.params?.getD []
  match command.type? with
  | some t =>
    if t ∈ handlers useAssetlib then
      (run t params).map Response.success
    else
      Except.ok (Response.error ("Unknown command type: " ++ fstr_type (some t)))
  | none => Except.ok (Response.error ("Unknown command type: " ++ fstr_type none))

/-- `execute_command`: catches any exception from the internal dispatcher and
converts it to `{status:"error", message:str(e)}`. -/
def execute_command {V : Type} (useAssetlib : Bool)
    (run : String → List (String × V) → Except String V)
    (command : Command V) : Response V :=
  match execute_command_internal useAssetlib run command with
  | .ok r => r
  | .error e => Response.error e

/-- Back-end connection state: whether a client is accepted, and the
pending-bytes buffer (`self.client`, `self.buffer`). -/
structure ServerState where
  client : Bool
  buffer : List Nat
  deriving Repr, DecidableEq

/-- Whether a byte is a UTF-8 continuation byte (`0x80`-`0xBF`). -/
def utf8Cont (b : Nat) : Bool := 128 ≤ b && b < 192

/-- Strict UTF-8 validity of a byte string, as checked by Python's
`bytes.decode("utf-8")`: ill-formed input - a lone or truncated multi-byte
sequence, an overlong encoding, a surrogate, a byte above `0xF4` - raises
`UnicodeDecodeError`. -/
def utf8Valid : List Nat → Bool
  | [] => true
  | b :: rest =>
    if b < 128 then utf8Valid rest
    else if 194 ≤ b && b ≤ 223 then
      match rest with
      | c1 :: rest' => utf8Cont c1 && utf8Valid rest'
      | [] => false
    else if b = 224 then
      match rest with
      | c1 :: c2 :: rest' => (160 ≤ c1 && c1 < 192) && utf8Cont c2 && utf8Valid rest'
      | _ => false
    else if (225 ≤ b && b ≤ 236) || b = 238 || b = 239 then
      match rest with
      | c1 :: c2 :: rest' => utf8Cont c1 && utf8Cont c2 && utf8Valid rest'
      | _ => false
    else if b = 237 then
      match rest with
      | c1 :: c2 :: rest' => (128 ≤ c1 && c1 < 160) && utf8Cont c2 && utf8Valid rest'
      | _ => false
    else if b = 240 then
      match rest with
      | c1 :: c2 :: c3 :: rest' =>
        (144 ≤ c1 && c1 < 192) && utf8Cont c2 && utf8Cont c3 && utf8Valid rest'
      | _ => false
    else if 241 ≤ b && b ≤ 243 then
      match rest with
      | c1 :: c2 :: c3 :: rest' =>
        utf8Cont c1 && utf8Cont c2 && utf8Cont c3 && utf8Valid rest'
      | _ => false
    else if b = 244 then
      match rest with
      | c1 :: c2 :: c3 :: rest' =>
        (128 ≤ c1 && c1 < 144) && utf8Cont c2 && utf8Cont c3 && utf8Valid rest'
      | _ => false
    else false

/-- Outcome of the back end's parse attempt
`json.loads(self.buffer.decode("utf-8"))` (`server.py` line 92): `ok` - both
the decode and the JSON parse succeed; `jsonError` - the decode succeeds but
`json.loads` raises `json.JSONDecodeError`, which the inner handler at line
98 catches, keeping the buffer; `decodeError` - `decode("utf-8")` raises
`UnicodeDecodeError`, a `ValueError` that is not a `json.JSONDecodeError`,
so it escapes the inner handler and reaches the outer receive handler at
lines 109-113. -/
inductive ParseAttempt (V : Type) where
  | ok (command : Command V)
  | jsonError
  | decodeError
  deriving Repr, DecidableEq

/-- Whether a parse attempt produced a command. -/
def ParseAttempt.isOk {V : Type} : ParseAttempt V → Bool
  | .ok _ => true
  | _ => false

/-- Outcome of the non-blocking `recv` on one poll tick: data bytes (an empty
result means the peer closed), `BlockingIOError`, or another receive error. -/
inductive RecvOutcome where
  | recv (data : List Nat)
  | blocked
  | excRecv
  deriving Repr, DecidableEq

/-- One poll tick of `_process_server`, restricted to the receive path: append
to the buffer, attempt `json.loads(buffer.decode("utf-8"))` on the full
buffer; on success clear the buffer, dispatch and send the response; on
`json.JSONDecodeError` keep buffering; on `UnicodeDecodeError` the outer
receive handler (`server.py` lines 109-113) drops the client and clears the
buffer, exactly as a zero-length read or a receive error does.  The returned
list is the trace of (dispatched command, sent response) pairs of the tick. -/
def process_server {V : Type} (parse : List Nat → ParseAttempt V)
    (dispatch : Command V → Response V) (st : ServerState) (ev : RecvOutcome) :
    ServerState × List (Command V × Response V) :=
  if st.client then
    match ev with
    | .recv data =>
      if data ≠ [] then
        let buf := st.buffer ++ data
        match parse buf with
        | .ok command => ({ client := st.client, buffer := [] }, [(command, dispatch command)])
        | .jsonError => ({ client := st.client, buffer := buf }, [])
        | .decodeError => ({ client := false, buffer := [] }, [])
      else
        ({ client := false, buffer := [] }, [])
    | .blocked => (st, [])
    | .excRecv => ({ client := false, buffer := [] }, [])
  else (st, [])

/-- Run successive poll ticks, delivering one received chunk per tick, and
concatenate the dispatch/response traces. -/
def process_chunks {V : Type} (parse : List Nat → ParseAttempt V)
    (dispatch : Command V → Response V) :
    ServerState → List (List Nat) → ServerState × List (Command V × Response V)
  | st, [] => (st, [])
  | st, c :: rest =>
    let step := process_server parse dispatch st (.recv c)
    let next := process_chunks parse dispatch step.1 rest
    (next.1, step.2 ++ next.2)

/-! ### Front-end relay client (`houdini_mcp_server.py`) -/

/-- The front end's connection object; `sock = false` models
`self.sock is None`. -/
structure HoudiniConnection where
  sock : Bool
  deriving Repr, DecidableEq

/-- `HoudiniConnection.disconnect`: best-effort close, always nulls the
handle. -/
def disconnect (c : HoudiniConnection) : HoudiniConnection :=
  { sock := false }

/-- One `recv` in `send_command`'s read loop: either it returns data bytes
(an empty result means the peer closed the stream) or it raises
(`socket.timeout` or another receive exception) with message `msg`. -/
inductive RecvStep where
  | chunk (data : List Nat)
  | raise (msg : String)
  deriving Repr, DecidableEq

/-- Outcome of `send_command`'s read loop over a script of `recv` results:
a full-buffer parse succeeded, the peer closed before one did (`break`),
a receive raised, or (a model artifact) the script ran out while the loop
would still be blocked reading. -/
inductive ReadOutcome (R : Type) where
  | parsed (v : R)
  | eofBreak
  | raised (msg : String)
  | blockedOut
  deriving Repr, DecidableEq

/-- The read loop of `send_command`: accumulate chunks, attempting a
full-buffer JSON parse after every chunk, until a parse succeeds, the peer
closes, or a receive raises. -/
def read_response {R : Type} (parse : List Nat → Option R) :
    List Nat → List RecvStep → ReadOutcome R
  | _, [] => .blockedOut
  | acc, .chunk data :: rest =>
    if data = [] then .eofBreak
    else
      let acc' := acc ++ data
      match parse acc' with
      | some v => .parsed v
      | none => read_response parse acc' rest
  | _, .raise msg :: _ => .raised msg

/-- Result of one `send_command` call: the parsed response, a propagated
exception with message `msg`, or (artifact) an unfinished blocking read. -/
inductive SendResult (R : Type) where
  | ok (response : R)
  | raised (msg : String)
  | blockedOut
  deriving Repr, DecidableEq

/-- `HoudiniConnection.send_command`, driven by oracles for the parts that
touch the network: `connect_ok` is whether `connect()` would succeed when not
already connected, `send_exc` is the exception message raised by `sendall`
(if any), and `recvs` scripts the read loop.  Returns the call's result
together with the connection object's final state.  A failed `connect` raises
`ConnectionError` before the try block; every exception inside the try block
runs `disconnect` before re-raising. -/
def send_command {R : Type} (parse : List Nat → Option R)
    (conn : HoudiniConnection) (connect_ok : Bool) (send_exc : Option String)
    (recvs : List RecvStep) : SendResult R × HoudiniConnection :=
  if conn.sock = false ∧ connect_ok = false then
    (.raised "Could not connect to Houdini on port 9876.", { sock := false })
  else
    let conn' : HoudiniConnection := { sock := true }
    match send_exc with
    | some msg => (.raised msg, disconnect conn')
    | none =>
      match read_response parse [] recvs with
      | .parsed v => (.ok v, conn')
      | .eofBreak =>
        (.raised "No (or incomplete) data from Houdini; EOF reached.", disconnect conn')
      | .raised msg => (.raised msg, disconnect conn')
      | .blockedOut => (.blockedOut, conn')

/-! ### `modify_node` (`server.py`) -/

/-- A Python parameter value as carried through JSON and `parm.eval()`;
restricted here to integers and strings. -/
inductive PV where
  | int (n : Int)
  | str (s : String)
  deriving Repr, DecidableEq

/-- Python `str()` as used by the f-strings in `modify_node`'s change log. -/
def pyStr : PV → String
  | .int n => toString n
  | .str s => s

/-- Python `str()` of a list of numbers, as in
`f"Position set to \x7bposition\x7d"`. -/
def pyIntListStr (xs : List Int) : String :=
  "[" ++ String.intercalate ", " (xs.map toString) ++ "]"

/-- A node as `modify_node` sees it: name, path, and its parameters with
current values. -/
structure PNode where
  name : String
  path : String
  parms : List (String × PV)
  deriving Repr, DecidableEq

/-- `hou.node(path)` over a scene given as a node list. -/
def findNode (nodes : List PNode) (path : String) : Option PNode :=
  nodes.find? (fun n => n.path = path)

/-- `node.parm(k)` followed by `parm.eval()`: the current value, if the
parameter exists. -/
def lookupParm (parms : List (String × PV)) (k : String) : Option PV :=
  (parms.find? (fun q => q.1 = k)).map Prod.snd

/-- `parm.set(v)`: update the value of an existing parameter (never adds or
removes parameters). -/
def setParm (parms : List (String × PV)) (k : String) (v : PV) : List (String × PV) :=
  parms.map (fun q => if q.1 = k then (k, v) else q)

/-- One change-log entry of `modify_node`'s parameter loop:
`f"Parameter \x7bp_name\x7d changed from \x7bold_val\x7d to \x7bp_val\x7d"`. -/
def mkParamEntry (n old new : String) : String :=
  "Parameter " ++ n ++ " changed from " ++ old ++ " to " ++ new

/-- `modify_node`'s parameter loop: for each caller-supplied (name, value) in
order, if the name resolves to a parameter, record its old value, set the new
one and append a change entry; otherwise skip it.  Returns the updated
parameters and the change entries. -/
def applyParams : List (String × PV) → List (String × PV) →
    List (String × PV) × List String
  | parms, [] => (parms, [])
  | parms, q :: rest =>
    match lookupParm parms q.1 with
    | some old =>
      let r := applyParams (setParm parms q.1 q.2) rest
      (r.1, mkParamEntry q.1 (pyStr old) (pyStr q.2) :: r.2)
    | none => applyParams parms rest

/-- Result dict of `modify_node`: `{"path": node.path(), "changes": [...]}`. -/
structure ModifyResult where
  path : String
  changes : List String
  deriving Repr, DecidableEq

/-- Directory part of a node path, for the path reported after a rename. -/
def parentDir (path : String) : String :=
  String.intercalate "/" ((path.splitOn "/").dropLast)

/-- `modify_node(path, parameters=None, position=None, name=None)`: raises if
the path does not resolve; otherwise applies the optional rename (skipped for
a falsy or unchanged name), the optional position (only when at least two
coordinates are given), and the parameter loop, accumulating the change log
in that order. -/
def modify_node (nodes : List PNode) (path : String)
    (parameters : Option (List (String × PV))) (position : Option (List Int))
    (name : Option String) : Except String ModifyResult :=
  match findNode nodes path with
  | none => Except.error ("Node not found: " ++ path)
  | some node =>
    let old_name := node.name
    let renameLog : List String :=
      match name with
      | some n =>
        if n ≠ "" ∧ n ≠ old_name then ["Renamed from " ++ old_name ++ " to " ++ n] else []
      | none => []
    let positionLog : List String :=
      match position with
      | some ps => if 2 ≤ ps.length then ["Position set to " ++ pyIntListStr ps] else []
      | none => []
    let parmLog : List String :=
      match parameters with
      | some ps => (applyParams node.parms ps).2
      | none => []
    let newPath : String :=
      match name with
      | some n =>
        if n ≠ "" ∧ n ≠ old_name then parentDir node.path ++ "/" ++ n else node.path
      | none => node.path
    Except.ok { path := newPath, changes := renameLog ++ positionLog ++ parmLog }

/-! ### `set_material` (`server.py`) -/

/-- A node as `set_material` sees it: absolute path, type category name, and
the names of its parameters. -/
structure MNode where
  path : String
  category : String
  parms : List String
  deriving Repr, DecidableEq

/-- The host scene as `set_material` consults it: `node` is `hou.node` on an
absolute path (relative lookups are absolute lookups on the joined path);
`create` is `parent.createNode(node_type, node_name)`, returning the created
node's parameter names or raising with a message. -/
structure MatScene where
  node : String → Option MNode
  create : String → String → String → Except String (List String)

/-- The body of `set_material` up to its try/except: resolve the target,
check its category, find a material context (`/mat`, else `/shop`), find or
create the material node, then assign it either through the target's
`shop_materialpath` parameter or through a `material1` Material SOP inside
the target's `geometry` node.  Parameter overrides and the display-chain
wiring only mutate host state and do not affect the returned envelope, so
they are not tracked.  Returns (material node path, target path). -/
def set_material_body (s : MatScene) (node_path material_type : String)
    (name : Option String) : Except String (String × String) := do
  let target ← match s.node node_path with
    | some n => Except.ok n
    | none => Except.error ("Node not found: " ++ node_path)
  if target.category = "Object" then
    let mat_context ← match s.node "/mat" with
      | some c => Except.ok c
      | none =>
        match s.node "/shop" with
        | some c => Except.ok c
        | none => Except.error "No /mat or /shop context found to create materials."
    let mat_name :=
      match name with
      | some n => if n = "" then material_type ++ "_auto" else n
      | none => material_type ++ "_auto"
    let mat_node_path ← match s.node (mat_context.path ++ "/" ++ mat_name) with
      | some m => Except.ok m.path
      | none =>
        (s.create mat_context.path material_type mat_name).map
          (fun _ => mat_context.path ++ "/" ++ mat_name)
    if target.parms.contains "shop_materialpath" then
      Except.ok (mat_node_path, target.path)
    else
      match s.node (target.path ++ "/geometry") with
      | none => Except.error "No 'geometry' node found inside OBJ to apply material to."
      | some geo =>
        let sop_parms ← match s.node (geo.path ++ "/material1") with
          | some msop => Except.ok msop.parms
          | none => s.create geo.path "material" "material1"
        if sop_parms.contains "shop_materialpath1" then
          Except.ok (mat_node_path, target.path)
        else
          Except.error "No shop_materialpath1 on Material SOP to assign the material."
  else
    Except.error
      ("Node " ++ node_path ++ " is not an OBJ-level node and cannot accept direct materials.")

/-- Result dict of `set_material`: `{"status":"ok", "material_node", "applied_to"}`
on success, `{"status":"error", "message", "node"}` on any caught failure. -/
inductive MatResult where
  | ok (material_node : String) (applied_to : String)
  | err (message : String) (node : String)
  deriving Repr, DecidableEq

/-- `set_material`: the whole body runs inside try/except, so every raise is
converted to the structured error result carrying the original `node_path`. -/
def set_material (s : MatScene) (node_path material_type : String)
    (name : Option String) : MatResult :=
  match set_material_body s node_path material_type name with
  | .ok r => .ok r.1 r.2
  | .error e => .err e node_path

/-! ### Concrete instances used by the witnesses -/

/-- A sample envelope, used by witnesses. -/
def wcmd : Command Nat :=
  { type? := some "get_scene_info", params? := some [] }

/-- A sample model of `json.loads(buf.decode("utf-8"))` recognizing exactly
the ASCII document `[123, 125]` (the braces of `"{}"`): an undecodable
buffer raises `UnicodeDecodeError`, any other decodable buffer raises
`json.JSONDecodeError`.  Used by witnesses. -/
def wparse : List Nat → ParseAttempt Nat :=
  fun b =>
    if utf8Valid b then
      (if b = [123, 125] then ParseAttempt.ok wcmd else ParseAttempt.jsonError)
    else ParseAttempt.decodeError

/-- The UTF-8 bytes of the complete JSON command `\x7b"a":"é"\x7d`: brace,
quote, `a`, quote, colon, quote, the two-byte sequence `0xC3 0xA9` of `é`,
quote, brace. -/
def ex_bytes : List Nat := [123, 34, 97, 34, 58, 34, 195, 169, 34, 125]

/-- The envelope `json.loads` yields for `ex_bytes`: an object with neither a
`type` nor a `params` key. -/
def ex_cmd : Command Nat := { type? := none, params? := none }

/-- A sample model of `json.loads(buf.decode("utf-8"))` recognizing exactly
the non-ASCII document `ex_bytes`, used by the chunk-split counterexamples:
an undecodable buffer (such as one ending inside the `0xC3 0xA9` pair, or
containing `0xFF`) raises `UnicodeDecodeError`, any other decodable buffer
raises `json.JSONDecodeError`. -/
def ex_parse : List Nat → ParseAttempt Nat :=
  fun b =>
    if utf8Valid b then
      (if b = ex_bytes then ParseAttempt.ok ex_cmd else ParseAttempt.jsonError)
    else ParseAttempt.decodeError

/-- A sample dispatch function, used by witnesses. -/
def wdispatch : Command Nat → Response Nat :=
  fun _ => Response.success 0

/-- A sample handler-behaviour function, used by witnesses. -/
def wrun : String → List (String × Nat) → Except String Nat :=
  fun _ _ => Except.ok 7

/-- A sample handler-behaviour function that always raises, used by
witnesses. -/
def wrunFail : String → List (String × Nat) → Except String Nat :=
  fun _ _ => Except.error "boom"

/-- A sample node, used by witnesses. -/
def wnode : PNode :=
  { name := "a", path := "/obj/a", parms := [("tx", PV.int 0), ("ty", PV.int 1)] }

/-- A sample scene for `set_material`, used by witnesses. -/
def wscene : MatScene :=
  { node := fun p =>
      if p = "/obj/geo1" then
        some { path := "/obj/geo1", category := "Object", parms := ["shop_materialpath"] }
      else if p = "/mat" then
        some { path := "/mat", category := "Manager", parms := [] }
      else none,
    create := fun _ _ _ => Except.ok ["shop_materialpath1"] }

/-! ### Helper lemmas -/

theorem flatten_ne_nil {l : List (List Nat)} (h0 : l ≠ [])
    (hne : ∀ c ∈ l, c ≠ []) : l.flatten ≠ [] := by
  cases l with
  | nil => exact absurd rfl h0
  | cons c rest =>
    have hc : c ≠ [] := hne c (by simp)
    simp only [List.flatten_cons, ne_eq, List.append_eq_nil]
    exact fun h => hc h.1

theorem process_chunks_one_frame {V : Type} (parse : List Nat → ParseAttempt V)
    (dispatch : Command V → Response V) (bytes : List Nat) (command : Command V)
    (hcmd : parse bytes = ParseAttempt.ok command)
    (hpref : ∀ p : List Nat, p <+: bytes → p ≠ bytes → parse p = ParseAttempt.jsonError) :
    ∀ (chunks : List (List Nat)) (buf : List Nat),
      chunks ≠ [] → (∀ c ∈ chunks, c ≠ []) → buf ++ chunks.flatten = bytes →
      process_chunks parse dispatch ⟨true, buf⟩ chunks
        = (⟨true, []⟩, [(command, dispatch command)]) := by
  intro chunks
  induction chunks with
  | nil => intro buf h0 _ _; exact absurd rfl h0
  | cons c rest ih =>
    intro buf _ hne hjoin
    have hc : c ≠ [] := hne c (by simp)
    cases rest with
    | nil =>
      have hbc : buf ++ c = bytes := by simpa using hjoin
      have hparse : parse (buf ++ c) = ParseAttempt.ok command := by rw [hbc]; exact hcmd
      simp [process_chunks, process_server, hc, hparse]
    | cons d rest' =>
      have hflat : buf ++ c ++ (d :: rest').flatten = bytes := by
        rw [← hjoin]; simp [List.flatten_cons, List.append_assoc]
      have hpre : (buf ++ c) <+: bytes := ⟨(d :: rest').flatten, hflat⟩
      have hneq : buf ++ c ≠ bytes := by
        intro h
        have hXnil : (d :: rest').flatten = [] := by
          have h2 := hflat
          rw [h] at h2
          have hlen := congrArg List.length h2
          simp only [List.length_append] at hlen
          have hz : (d :: rest').flatten.length = 0 := by omega
          exact List.length_eq_zero.mp hz
        exact flatten_ne_nil (by simp)
          (fun x hx => hne x (List.mem_cons_of_mem _ hx)) hXnil
      have hparse : parse (buf ++ c) = ParseAttempt.jsonError := hpref _ hpre hneq
      have step : process_server parse dispatch ⟨true, buf⟩ (.recv c)
          = (⟨true, buf ++ c⟩, []) := by
        simp [process_server, hc, hparse]
      have ihr := ih (buf ++ c) (by simp)
        (fun x hx => hne x (List.mem_cons_of_mem _ hx)) hflat
      have unfold1 : process_chunks parse dispatch ⟨true, buf⟩ (c :: d :: rest')
          = ((process_chunks parse dispatch
                (process_server parse dispatch ⟨true, buf⟩ (.recv c)).1 (d :: rest')).1,
             (process_server parse dispatch ⟨true, buf⟩ (.recv c)).2
               ++ (process_chunks parse dispatch
                (process_server parse dispatch ⟨true, buf⟩ (.recv c)).1 (d :: rest')).2) := rfl
      rw [unfold1, step]
      simp [ihr]

theorem process_chunks_no_parse {V : Type} (parse : List Nat → ParseAttempt V)
    (dispatch : Command V → Response V) :
    ∀ (chunks : List (List Nat)) (buf : List Nat),
      (∀ c ∈ chunks, c ≠ []) →
      (∀ k : Nat, parse (buf ++ (chunks.take (k + 1)).flatten) = ParseAttempt.jsonError) →
      process_chunks parse dispatch ⟨true, buf⟩ chunks
        = (⟨true, buf ++ chunks.flatten⟩, []) := by
  intro chunks
  induction chunks with
  | nil => intro buf _ _; simp [process_chunks]
  | cons c rest ih =>
    intro buf hne hnp
    have hc : c ≠ [] := hne c (by simp)
    have h0 : parse (buf ++ c) = ParseAttempt.jsonError := by
      have h1 := hnp 0
      simpa using h1
    have step : process_server parse dispatch ⟨true, buf⟩ (.recv c)
        = (⟨true, buf ++ c⟩, []) := by
      simp [process_server, hc, h0]
    have ihr := ih (buf ++ c) (fun x hx => hne x (List.mem_cons_of_mem _ hx))
      (fun k => by
        have h1 := hnp (k + 1)
        simpa [List.append_assoc] using h1)
    have unfold1 : process_chunks parse dispatch ⟨true, buf⟩ (c :: rest)
        = ((process_chunks parse dispatch
              (process_server parse dispatch ⟨true, buf⟩ (.recv c)).1 rest).1,
           (process_server parse dispatch ⟨true, buf⟩ (.recv c)).2
             ++ (process_chunks parse dispatch
              (process_server parse dispatch ⟨true, buf⟩ (.recv c)).1 rest).2) := rfl
    rw [unfold1, step]
    simp [ihr, List.append_assoc]

theorem process_chunks_client_false {V : Type} (parse : List Nat → ParseAttempt V)
    (dispatch : Command V → Response V) :
    ∀ (chunks : List (List Nat)) (st : ServerState), st.client = false →
      process_chunks parse dispatch st chunks = (st, []) := by
  intro chunks
  induction chunks with
  | nil => intro st _; rfl
  | cons c rest ih =>
    intro st h
    have step : process_server parse dispatch st (.recv c) = (st, []) := by
      simp [process_server, h]
    have unfold1 : process_chunks parse dispatch st (c :: rest)
        = ((process_chunks parse dispatch
              (process_server parse dispatch st (.recv c)).1 rest).1,
           (process_server parse dispatch st (.recv c)).2
             ++ (process_chunks parse dispatch
              (process_server parse dispatch st (.recv c)).1 rest).2) := rfl
    rw [unfold1, step]
    simp [ih st h]

theorem process_chunks_no_ok {V : Type} (parse : List Nat → ParseAttempt V)
    (dispatch : Command V → Response V) :
    ∀ (chunks : List (List Nat)) (buf : List Nat),
      (∀ c ∈ chunks, c ≠ []) →
      (∀ k : Nat, (parse (buf ++ (chunks.take (k + 1)).flatten)).isOk = false) →
      (process_chunks parse dispatch ⟨true, buf⟩ chunks).2 = [] := by
  intro chunks
  induction chunks with
  | nil => intro buf _ _; rfl
  | cons c rest ih =>
    intro buf hne hnp
    have hc : c ≠ [] := hne c (by simp)
    have h0 : (parse (buf ++ c)).isOk = false := by
      have h1 := hnp 0
      simpa using h1
    have unfold1 : process_chunks parse dispatch ⟨true, buf⟩ (c :: rest)
        = ((process_chunks parse dispatch
              (process_server parse dispatch ⟨true, buf⟩ (.recv c)).1 rest).1,
           (process_server parse dispatch ⟨true, buf⟩ (.recv c)).2
             ++ (process_chunks parse dispatch
              (process_server parse dispatch ⟨true, buf⟩ (.recv c)).1 rest).2) := rfl
    cases hp : parse (buf ++ c) with
    | ok command => rw [hp] at h0; simp [ParseAttempt.isOk] at h0
    | jsonError =>
      have step : process_server parse dispatch ⟨true, buf⟩ (.recv c)
          = (⟨true, buf ++ c⟩, []) := by
        simp [process_server, hc, hp]
      rw [unfold1, step]
      have ihr := ih (buf ++ c) (fun x hx => hne x (List.mem_cons_of_mem _ hx))
        (fun k => by
          have h1 := hnp (k + 1)
          simpa [List.append_assoc] using h1)
      simp [ihr]
    | decodeError =>
      have step : process_server parse dispatch ⟨true, buf⟩ (.recv c)
          = (⟨false, []⟩, []) := by
        simp [process_server, hc, hp]
      rw [unfold1, step]
      simp [process_chunks_client_false parse dispatch rest ⟨false, []⟩ rfl]

theorem lookupParm_setParm_isSome (parms : List (String × PV)) (k k' : String) (v : PV) :
    (lookupParm (setParm parms k v) k').isSome = (lookupParm parms k').isSome := by
  induction parms with
  | nil => rfl
  | cons a t ih =>
    obtain ⟨a1, a2⟩ := a
    by_cases h1 : a1 = k <;> by_cases h2 : a1 = k' <;>
      simp_all [setParm, lookupParm, List.find?]

theorem applyParams_changes (ps : List (String × PV)) :
    ∀ parms : List (String × PV),
      List.Forall₂
        (fun (e : String) (q : String × PV) => ∃ old, e = mkParamEntry q.1 old (pyStr q.2))
        (applyParams parms ps).2
        (ps.filter (fun q => (lookupParm parms q.1).isSome)) := by
  induction ps with
  | nil => intro parms; simp [applyParams]
  | cons q rest ih =>
    intro parms
    cases hl : lookupParm parms q.1 with
    | some old =>
      rw [List.filter_cons]
      simp only [hl, Option.isSome_some, if_pos]
      simp only [applyParams, hl]
      refine List.Forall₂.cons ⟨pyStr old, rfl⟩ ?_
      have hrec := ih (setParm parms q.1 q.2)
      have hfc : rest.filter (fun r => (lookupParm (setParm parms q.1 q.2) r.1).isSome)
          = rest.filter (fun r => (lookupParm parms r.1).isSome) :=
        List.filter_congr (fun x hx => by rw [lookupParm_setParm_isSome])
      rwa [hfc] at hrec
    | none =>
      rw [List.filter_cons]
      simp only [hl, Option.isSome_none]
      simp only [applyParams, hl]
      exact ih parms

/-! ### Claim theorems -/

/-- C1, counterexample: the claim says an unrecognized type yields
`{status:"success", result:"Unknown command type: <type>"}`.  On the code,
`execute_command` for the unknown type `"bogus"` returns the error envelope
`{status:"error", message:"Unknown command type: bogus"}`, not a success
wrapper. -/
theorem unknown_type_not_success_wrapped :
    execute_command false (fun _ _ => Except.ok "")
        { type? := some "bogus", params? := some [] }
      = Response.error "Unknown command type: bogus"
    ∧ execute_command false (fun _ _ => Except.ok "")
        { type? := some "bogus", params? := some [] }
      ≠ Response.success "Unknown command type: bogus"
    ∧ (execute_command false (fun _ _ => Except.ok "")
        { type? := some "bogus", params? := some [] }).status ≠ "success" := by
  refine ⟨?_, ?_, ?_⟩ <;> decide

/-- C1, amended: for every command envelope whose type is not a key of the
dispatch table (given the asset-library toggle), `execute_command` returns
the error envelope `{status:"error", message:"Unknown command type: <type>"}`
- the same envelope shape as a handler exception, not a success wrapper. -/
theorem unknown_type_error_envelope {V : Type} (useAssetlib : Bool)
    (run : String → List (String × V) → Except String V)
    (t? : Option String) (params? : Option (List (String × V)))
    (h : ∀ t, t? = some t → t ∉ handlers useAssetlib) :
    execute_command useAssetlib run { type? := t?, params? := params? }
      = Response.error ("Unknown command type: " ++ fstr_type t?) := by
  cases t? with
  | none => rfl
  | some t =>
    have ht : t ∉ handlers useAssetlib := h t rfl
    simp [execute_command, execute_command_internal, ht]

/-- Witness for C1's amended theorem at the unknown type `"bogus"` with the
asset-library toggle off. -/
theorem unknown_type_error_envelope_witness :
    (∀ t, (some "bogus" : Option String) = some t → t ∉ handlers false)
    ∧ execute_command false wrun { type? := some "bogus", params? := some [] }
        = Response.error ("Unknown command type: " ++ fstr_type (some "bogus")) := by
  have hh : ∀ t, (some "bogus" : Option String) = some t → t ∉ handlers false := by
    intro t ht
    injection ht with h
    subst h
    decide
  exact ⟨hh, unknown_type_error_envelope false wrun (some "bogus") (some []) hh⟩

/-- C4: when a dispatched command's handler raises, `execute_command` returns
`{status:"error", message:str(e)}` instead of propagating, and the poll loop
dispatches the frame to a clean state with exactly that response sent, so the
server keeps processing. -/
theorem handler_exception_error_envelope {V : Type} (useAssetlib : Bool)
    (run : String → List (String × V) → Except String V) (t : String)
    (params : List (String × V)) (e : String)
    (ht : t ∈ handlers useAssetlib) (hrun : run t params = Except.error e) :
    execute_command useAssetlib run { type? := some t, params? := some params }
      = Response.error e
    ∧ ∀ (parse : List Nat → ParseAttempt V) (bytes : List Nat),
        bytes ≠ [] →
        parse bytes = ParseAttempt.ok { type? := some t, params? := some params } →
        process_server parse (execute_command useAssetlib run) ⟨true, []⟩ (.recv bytes)
          = (⟨true, []⟩,
             [({ type? := some t, params? := some params }, Response.error e)]) := by
  have hmain : execute_command useAssetlib run { type? := some t, params? := some params }
      = Response.error e := by
    simp [execute_command, execute_command_internal, ht, hrun, Except.map]
  refine ⟨hmain, ?_⟩
  intro parse bytes hb hp
  simp [process_server, hb, hp, hmain]

/-- Witness for C4 at the recognized type `"get_scene_info"` with a handler
that raises `"boom"`. -/
theorem handler_exception_error_envelope_witness :
    ("get_scene_info" ∈ handlers false)
    ∧ (wrunFail "get_scene_info" [] = Except.error "boom")
    ∧ (execute_command false wrunFail
          { type? := some "get_scene_info", params? := some [] }
        = Response.error "boom"
      ∧ ∀ (parse : List Nat → ParseAttempt Nat) (bytes : List Nat),
          bytes ≠ [] →
          parse bytes = ParseAttempt.ok { type? := some "get_scene_info", params? := some [] } →
          process_server parse (execute_command false wrunFail) ⟨true, []⟩ (.recv bytes)
            = (⟨true, []⟩,
               [({ type? := some "get_scene_info", params? := some [] },
                 Response.error "boom")])) :=
  ⟨by decide, rfl,
   handler_exception_error_envelope false wrunFail "get_scene_info" [] "boom"
     (by decide) rfl⟩

/-- C5: for a recognized type whose handler returns a value without raising,
`execute_command` returns exactly `{status:"success", result:<value>}`. -/
theorem recognized_handler_success_envelope {V : Type} (useAssetlib : Bool)
    (run : String → List (String × V) → Except String V) (t : String)
    (params : List (String × V)) (v : V)
    (ht : t ∈ handlers useAssetlib) (hrun : run t params = Except.ok v) :
    execute_command useAssetlib run { type? := some t, params? := some params }
      = Response.success v := by
  simp [execute_command, execute_command_internal, ht, hrun, Except.map]

/-- Witness for C5 at `"get_scene_info"` with a handler returning `7`. -/
theorem recognized_handler_success_envelope_witness :
    ("get_scene_info" ∈ handlers false) ∧ (wrun "get_scene_info" [] = Except.ok 7)
    ∧ execute_command false wrun { type? := some "get_scene_info", params? := some [] }
        = Response.success 7 :=
  ⟨by decide, rfl,
   recognized_handler_success_envelope false wrun "get_scene_info" [] 7 (by decide) rfl⟩

/-- C10: `execute_command` is total at the envelope interface: its status is
always `"success"` or `"error"`; a missing `params` key behaves as the empty
mapping; a missing `type` key yields the unrecognized-command envelope with
the type printed as `None`; and a handler raising (as keyword-argument
mismatches do) surfaces as the error envelope. -/
theorem execute_command_total {V : Type} (useAssetlib : Bool)
    (run : String → List (String × V) → Except String V) (command : Command V) :
    ((execute_command useAssetlib run command).status = "success"
      ∨ (execute_command useAssetlib run command).status = "error")
    ∧ (∀ t?, execute_command useAssetlib run { type? := t?, params? := none }
        = execute_command useAssetlib run { type? := t?, params? := some [] })
    ∧ execute_command useAssetlib run { type? := none, params? := command.params? }
        = Response.error "Unknown command type: None"
    ∧ (∀ t params e, t ∈ handlers useAssetlib → run t params = Except.error e →
        execute_command useAssetlib run { type? := some t, params? := some params }
          = Response.error e) := by
  refine ⟨?_, fun _ => rfl, rfl, ?_⟩
  · cases h : execute_command useAssetlib run command with
    | success v => left; rfl
    | error m => right; rfl
  · intro t params e ht hrun
    simp [execute_command, execute_command_internal, ht, hrun, Except.map]

/-- Witness for C10 at a sample run function and envelope. -/
theorem execute_command_total_witness :
    ((execute_command false wrun wcmd).status = "success"
      ∨ (execute_command false wrun wcmd).status = "error")
    ∧ (∀ t?, execute_command false wrun { type? := t?, params? := none }
        = execute_command false wrun { type? := t?, params? := some [] })
    ∧ execute_command false wrun { type? := none, params? := wcmd.params? }
        = Response.error "Unknown command type: None"
    ∧ (∀ t params e, t ∈ handlers false → wrun t params = Except.error e →
        execute_command false wrun { type? := some t, params? := some params }
          = Response.error e) :=
  execute_command_total false wrun wcmd

/-- C2, counterexample: the claim quantifies over every split of a complete
JSON command.  The non-ASCII command `ex_bytes` split inside the two-byte
sequence of `é` makes the intermediate buffer fail `decode("utf-8")`; the
outer receive handler then drops the client with zero dispatches and zero
responses, while single-chunk delivery dispatches once. -/
theorem chunked_frame_split_drops_client :
    (ex_parse ex_bytes = ParseAttempt.ok ex_cmd)
    ∧ (([[123, 34, 97, 34, 58, 34, 195], [169, 34, 125]] : List (List Nat)).flatten
        = ex_bytes)
    ∧ (ex_parse [123, 34, 97, 34, 58, 34, 195] = ParseAttempt.decodeError)
    ∧ (process_chunks ex_parse wdispatch ⟨true, []⟩
        [[123, 34, 97, 34, 58, 34, 195], [169, 34, 125]] = (⟨false, []⟩, []))
    ∧ (process_chunks ex_parse wdispatch ⟨true, []⟩ [ex_bytes]
        = (⟨true, []⟩, [(ex_cmd, wdispatch ex_cmd)]))
    ∧ (process_chunks ex_parse wdispatch ⟨true, []⟩
          [[123, 34, 97, 34, 58, 34, 195], [169, 34, 125]]
        ≠ process_chunks ex_parse wdispatch ⟨true, []⟩ [ex_bytes]) := by
  refine ⟨?_, ?_, ?_, ?_, ?_, ?_⟩ <;> decide

/-- C2 (amended): delivering one complete frame split into any sequence of
nonempty chunks all of whose intermediate accumulated buffers are decodable
JSON-incomplete prefixes - in particular, any split of an ASCII command -
produces exactly one dispatch and one response, equal to the single-chunk
delivery.  A split whose intermediate buffer fails UTF-8 decoding instead
drops the client with no dispatch and no response. -/
theorem chunked_frame_single_dispatch {V : Type} (parse : List Nat → ParseAttempt V)
    (dispatch : Command V → Response V) (bytes : List Nat) (command : Command V)
    (chunks : List (List Nat))
    (hcmd : parse bytes = ParseAttempt.ok command)
    (hpref : ∀ p : List Nat, p <+: bytes → p ≠ bytes → parse p = ParseAttempt.jsonError)
    (hjoin : chunks.flatten = bytes) (h0 : chunks ≠ [])
    (hne : ∀ c ∈ chunks, c ≠ []) :
    process_chunks parse dispatch ⟨true, []⟩ chunks
      = (⟨true, []⟩, [(command, dispatch command)])
    ∧ process_chunks parse dispatch ⟨true, []⟩ chunks
      = process_chunks parse dispatch ⟨true, []⟩ [bytes] := by
  have hbytes_ne : bytes ≠ [] := by
    rw [← hjoin]; exact flatten_ne_nil h0 hne
  have h1 := process_chunks_one_frame parse dispatch bytes command hcmd hpref chunks []
    h0 hne (by simpa using hjoin)
  have h2 := process_chunks_one_frame parse dispatch bytes command hcmd hpref [bytes] []
    (by simp) (by simpa using hbytes_ne) (by simp)
  exact ⟨h1, h1.trans h2.symm⟩

/-- Witness for C2's amended theorem: the ASCII frame `[123, 125]` delivered
as two chunks `[123]` then `[125]`. -/
theorem chunked_frame_single_dispatch_witness :
    (wparse [123, 125] = ParseAttempt.ok wcmd)
    ∧ (∀ p : List Nat, p <+: [123, 125] → p ≠ [123, 125] →
        wparse p = ParseAttempt.jsonError)
    ∧ (([[123], [125]] : List (List Nat)).flatten = [123, 125])
    ∧ (process_chunks wparse wdispatch ⟨true, []⟩ [[123], [125]]
        = (⟨true, []⟩, [(wcmd, wdispatch wcmd)])
      ∧ process_chunks wparse wdispatch ⟨true, []⟩ [[123], [125]]
        = process_chunks wparse wdispatch ⟨true, []⟩ [[123, 125]]) := by
  have hpref : ∀ p : List Nat, p <+: [123, 125] → p ≠ [123, 125] →
      wparse p = ParseAttempt.jsonError := by
    intro p hp hne
    obtain ⟨t, ht⟩ := hp
    cases p with
    | nil => rfl
    | cons a p1 =>
      rw [List.cons_append] at ht
      injection ht with h1 h2
      subst h1
      cases p1 with
      | nil => rfl
      | cons b p2 =>
        rw [List.cons_append] at h2
        injection h2 with h3 h4
        subst h3
        cases p2 with
        | nil => exact absurd rfl hne
        | cons c p3 => simp at h4
  refine ⟨rfl, hpref, by simp, ?_⟩
  exact chunked_frame_single_dispatch wparse wdispatch [123, 125] wcmd [[123], [125]]
    rfl hpref rfl (by simp) (by simp)

/-- C3, counterexample: the claim says every failed full-buffer parse leaves
the buffer retained, with no malformed-input rejection path.  The undecodable
chunk `[255]` never parses as JSON, yet the program's outer receive handler
drops the client and clears the buffer instead of retaining it. -/
theorem undecodable_buffer_not_retained :
    (ex_parse [255] = ParseAttempt.decodeError)
    ∧ ((ex_parse [255]).isOk = false)
    ∧ (process_chunks ex_parse wdispatch ⟨true, []⟩ [[255]] = (⟨false, []⟩, []))
    ∧ (process_chunks ex_parse wdispatch ⟨true, []⟩ [[255]] ≠ (⟨true, [255]⟩, [])) := by
  refine ⟨?_, ?_, ?_, ?_⟩ <;> decide

/-- C3 (amended): chunks whose accumulated buffer never parses produce no
dispatch and no response.  When every failed parse attempt is a JSON failure
of a decodable buffer, the appended buffer is retained, so the final buffer
holds all received bytes; an undecodable buffer is instead a malformed-input
rejection path: the outer receive handler drops the client and clears the
buffer - still with no dispatch and no response. -/
theorem never_parsing_buffer_no_dispatch {V : Type} (parse : List Nat → ParseAttempt V)
    (dispatch : Command V → Response V) (chunks : List (List Nat))
    (hne : ∀ c ∈ chunks, c ≠ [])
    (hnp : ∀ k : Nat, (parse ((chunks.take (k + 1)).flatten)).isOk = false) :
    (process_chunks parse dispatch ⟨true, []⟩ chunks).2 = []
    ∧ ((∀ k : Nat, parse ((chunks.take (k + 1)).flatten) = ParseAttempt.jsonError) →
        process_chunks parse dispatch ⟨true, []⟩ chunks = (⟨true, chunks.flatten⟩, []))
    ∧ (∀ c rest, chunks = c :: rest → parse c = ParseAttempt.decodeError →
        process_chunks parse dispatch ⟨true, []⟩ chunks = (⟨false, []⟩, [])) := by
  refine ⟨?_, ?_, ?_⟩
  · exact process_chunks_no_ok parse dispatch chunks [] hne
      (fun k => by simpa using hnp k)
  · intro hjson
    have h := process_chunks_no_parse parse dispatch chunks [] hne
      (fun k => by simpa using hjson k)
    simpa using h
  · intro c rest hch hdec
    subst hch
    have hc : c ≠ [] := hne c (by simp)
    have step : process_server parse dispatch ⟨true, []⟩ (.recv c)
        = (⟨false, []⟩, []) := by
      simp [process_server, hc, hdec]
    have unfold1 : process_chunks parse dispatch ⟨true, []⟩ (c :: rest)
        = ((process_chunks parse dispatch
              (process_server parse dispatch ⟨true, []⟩ (.recv c)).1 rest).1,
           (process_server parse dispatch ⟨true, []⟩ (.recv c)).2
             ++ (process_chunks parse dispatch
              (process_server parse dispatch ⟨true, []⟩ (.recv c)).1 rest).2) := rfl
    rw [unfold1, step]
    simp [process_chunks_client_false parse dispatch rest ⟨false, []⟩ rfl]

/-- Witness for C3's amended theorem: a single decodable chunk `[104]` that
never parses as JSON. -/
theorem never_parsing_buffer_no_dispatch_witness :
    (∀ c ∈ ([[104]] : List (List Nat)), c ≠ [])
    ∧ (∀ k : Nat,
        (ex_parse ((([[104]] : List (List Nat)).take (k + 1)).flatten)).isOk = false)
    ∧ ((process_chunks ex_parse wdispatch ⟨true, []⟩ [[104]]).2 = []
      ∧ ((∀ k : Nat, ex_parse ((([[104]] : List (List Nat)).take (k + 1)).flatten)
            = ParseAttempt.jsonError) →
          process_chunks ex_parse wdispatch ⟨true, []⟩ [[104]]
            = (⟨true, ([[104]] : List (List Nat)).flatten⟩, []))
      ∧ (∀ c rest, ([[104]] : List (List Nat)) = c :: rest →
          ex_parse c = ParseAttempt.decodeError →
          process_chunks ex_parse wdispatch ⟨true, []⟩ [[104]] = (⟨false, []⟩, []))) := by
  have htake : ∀ k : Nat, (([[104]] : List (List Nat)).take (k + 1)).flatten = [104] := by
    intro k
    simp
  have hnp : ∀ k : Nat,
      (ex_parse ((([[104]] : List (List Nat)).take (k + 1)).flatten)).isOk = false := by
    intro k
    rw [htake k]
    decide
  refine ⟨by simp, hnp, ?_⟩
  exact never_parsing_buffer_no_dispatch ex_parse wdispatch [[104]] (by simp) hnp

/-- C6, counterexample: the claim says a failed parse retains the buffer
unchanged for the next read.  Receiving the undecodable byte `0xFF` fails the
parse attempt, yet the tick drops the client and clears the buffer via the
outer receive handler instead of retaining it. -/
theorem undecodable_tick_drops_client :
    (wparse [255] = ParseAttempt.decodeError)
    ∧ (process_server wparse wdispatch ⟨true, []⟩ (.recv [255]) = (⟨false, []⟩, []))
    ∧ (process_server wparse wdispatch ⟨true, []⟩ (.recv [255]) ≠ (⟨true, [255]⟩, [])) := by
  refine ⟨?_, ?_, ?_⟩ <;> decide

/-- C6 (amended): buffer transitions of one poll tick: a successful
full-buffer parse clears the buffer; a JSON-level parse failure of a
decodable buffer retains the appended buffer for the next read; an
undecodable buffer, a zero-length read, and a receive error all drop the
client and clear the buffer. -/
theorem buffer_reset_transitions {V : Type} (parse : List Nat → ParseAttempt V)
    (dispatch : Command V → Response V) (st : ServerState) (data : List Nat)
    (hclient : st.client = true) (hdata : data ≠ []) :
    (∀ command, parse (st.buffer ++ data) = ParseAttempt.ok command →
        process_server parse dispatch st (.recv data)
          = (⟨true, []⟩, [(command, dispatch command)]))
    ∧ (parse (st.buffer ++ data) = ParseAttempt.jsonError →
        process_server parse dispatch st (.recv data)
          = (⟨true, st.buffer ++ data⟩, []))
    ∧ (parse (st.buffer ++ data) = ParseAttempt.decodeError →
        process_server parse dispatch st (.recv data) = (⟨false, []⟩, []))
    ∧ process_server parse dispatch st (.recv []) = (⟨false, []⟩, [])
    ∧ process_server parse dispatch st .excRecv = (⟨false, []⟩, []) := by
  refine ⟨?_, ?_, ?_, ?_, ?_⟩
  · intro command hp
    simp [process_server, hclient, hdata, hp]
  · intro hp
    simp [process_server, hclient, hdata, hp]
  · intro hp
    simp [process_server, hclient, hdata, hp]
  · simp [process_server, hclient]
  · simp [process_server, hclient]

/-- Witness for C6's amended theorem at the buffer `[123]` receiving `[125]`,
which completes the sample frame. -/
theorem buffer_reset_transitions_witness :
    ((⟨true, [123]⟩ : ServerState).client = true) ∧ (([125] : List Nat) ≠ [])
    ∧ ((∀ command,
          wparse ((⟨true, [123]⟩ : ServerState).buffer ++ [125])
            = ParseAttempt.ok command →
          process_server wparse wdispatch ⟨true, [123]⟩ (.recv [125])
            = (⟨true, []⟩, [(command, wdispatch command)]))
      ∧ (wparse ((⟨true, [123]⟩ : ServerState).buffer ++ [125])
            = ParseAttempt.jsonError →
          process_server wparse wdispatch ⟨true, [123]⟩ (.recv [125])
            = (⟨true, (⟨true, [123]⟩ : ServerState).buffer ++ [125]⟩, []))
      ∧ (wparse ((⟨true, [123]⟩ : ServerState).buffer ++ [125])
            = ParseAttempt.decodeError →
          process_server wparse wdispatch ⟨true, [123]⟩ (.recv [125])
            = (⟨false, []⟩, []))
      ∧ process_server wparse wdispatch ⟨true, [123]⟩ (.recv []) = (⟨false, []⟩, [])
      ∧ process_server wparse wdispatch ⟨true, [123]⟩ .excRecv = (⟨false, []⟩, [])) :=
  ⟨rfl, by simp,
   buffer_reset_transitions wparse wdispatch ⟨true, [123]⟩ [125] rfl (by simp)⟩

/-- C7: whenever a `send_command` call raises - connect failure, send
failure, receive timeout, or the peer closing before a full response parses -
the connection handle ends the call nulled, so the next call starts from a
fresh connect; in particular every exception of the send/read phase runs
`disconnect` before propagating. -/
theorem send_failure_resets_socket {R : Type} (parse : List Nat → Option R)
    (conn : HoudiniConnection) (connect_ok : Bool) (send_exc : Option String)
    (recvs : List RecvStep) (msg : String)
    (hfail : (send_command parse conn connect_ok send_exc recvs).1
      = SendResult.raised msg) :
    (send_command parse conn connect_ok send_exc recvs).2.sock = false := by
  by_cases h1 : conn.sock = false ∧ connect_ok = false
  · simp [send_command, h1]
  · simp only [send_command, if_neg h1] at hfail ⊢
    cases send_exc with
    | some m => simp [disconnect]
    | none =>
      cases hr : read_response parse [] recvs with
      | parsed v => rw [hr] at hfail; simp at hfail
      | eofBreak => simp [hr, disconnect]
      | raised m => simp [hr, disconnect]
      | blockedOut => rw [hr] at hfail; simp at hfail

/-- Witness for C7: a connected socket whose `sendall` raises `"boom"`. -/
theorem send_failure_resets_socket_witness :
    ((send_command (fun _ => (none : Option Nat)) ⟨true⟩ false (some "boom") []).1
      = SendResult.raised "boom")
    ∧ (send_command (fun _ => (none : Option Nat)) ⟨true⟩ false (some "boom") []).2.sock
      = false :=
  ⟨rfl,
   send_failure_resets_socket (fun _ => none) ⟨true⟩ false (some "boom") [] "boom" rfl⟩

/-- C8: `set_material` never raises: it returns either the ok result or the
structured error result whose `node` field is the original `node_path`. -/
theorem set_material_never_raises (s : MatScene) (node_path material_type : String)
    (name : Option String) :
    (∃ m a, set_material s node_path material_type name = MatResult.ok m a)
    ∨ (∃ msg, set_material s node_path material_type name
        = MatResult.err msg node_path) := by
  cases h : set_material_body s node_path material_type name with
  | ok r => exact Or.inl ⟨r.1, r.2, by simp [set_material, h]⟩
  | error e => exact Or.inr ⟨e, by simp [set_material, h]⟩

/-- Witness for C8 at a sample scene and target node. -/
theorem set_material_never_raises_witness :
    (∃ m a, set_material wscene "/obj/geo1" "principledshader" none = MatResult.ok m a)
    ∨ (∃ msg, set_material wscene "/obj/geo1" "principledshader" none
        = MatResult.err msg "/obj/geo1") :=
  set_material_never_raises wscene "/obj/geo1" "principledshader" none

/-- C9: on an existing node, `modify_node` returns a change log that is the
rename entry (when a distinct truthy name is given), then the position entry
(when at least two coordinates are given), then one entry per resolving
parameter in the caller-supplied order, skipping names that do not
resolve. -/
theorem modify_node_change_order (nodes : List PNode) (path : String)
    (ps : List (String × PV)) (position : Option (List Int)) (name : Option String)
    (node : PNode) (h : findNode nodes path = some node) :
    ∃ newPath entries,
      modify_node nodes path (some ps) position name
        = Except.ok ⟨newPath,
            (match name with
             | some n =>
               if n ≠ "" ∧ n ≠ node.name then
                 ["Renamed from " ++ node.name ++ " to " ++ n]
               else []
             | none => []) ++
            (match position with
             | some l =>
               if 2 ≤ l.length then ["Position set to " ++ pyIntListStr l] else []
             | none => []) ++ entries⟩
      ∧ List.Forall₂
          (fun (e : String) (q : String × PV) => ∃ old, e = mkParamEntry q.1 old (pyStr q.2))
          entries (ps.filter (fun q => (lookupParm node.parms q.1).isSome)) := by
  refine ⟨(match name with
           | some n =>
             if n ≠ "" ∧ n ≠ node.name then parentDir node.path ++ "/" ++ n else node.path
           | none => node.path),
          (applyParams node.parms ps).2, ?_, applyParams_changes ps node.parms⟩
  simp [modify_node, h]

/-- Witness for C9 at a node with parameters `tx`, `ty`, renamed and moved,
with one resolving and one non-resolving caller parameter. -/
theorem modify_node_change_order_witness :
    (findNode [wnode] "/obj/a" = some wnode)
    ∧ ∃ newPath entries,
      modify_node [wnode] "/obj/a" (some [("tx", PV.int 5), ("nope", PV.str "x")])
          (some [1, 2]) (some "b")
        = Except.ok ⟨newPath,
            (match (some "b" : Option String) with
             | some n =>
               if n ≠ "" ∧ n ≠ wnode.name then
                 ["Renamed from " ++ wnode.name ++ " to " ++ n]
               else []
             | none => []) ++
            (match (some [1, 2] : Option (List Int)) with
             | some l =>
               if 2 ≤ l.length then ["Position set to " ++ pyIntListStr l] else []
             | none => []) ++ entries⟩
      ∧ List.Forall₂
          (fun (e : String) (q : String × PV) => ∃ old, e = mkParamEntry q.1 old (pyStr q.2))
          entries ([("tx", PV.int 5), ("nope", PV.str "x")].filter
            (fun q => (lookupParm wnode.parms q.1).isSome)) :=
  ⟨rfl,
   modify_node_change_order [wnode] "/obj/a" [("tx", PV.int 5), ("nope", PV.str "x")]
     (some [1, 2]) (some "b") wnode rfl⟩

end HoudiniMCP
